import Mathlib

/-!
Shallow embedding of the graph visualization engine of
`src/frontend/src/components/KnowledgeManager.tsx` (component `GraphExplorer`),
together with proofs about the embedded definitions.

Modelling conventions:
  * JavaScript numbers are modelled as exact rationals (`ℚ`); decimal literals
    such as `0.1`, `0.9`, `1.1`, `0.01` become the corresponding rationals.
  * `Math.sqrt`, `Math.cos`, `Math.sin` and `Math.PI` are opaque numeric
    operations; the embedding is parameterised over them by a `MathOps`
    record, so theorems quantified over `MathOps` hold for any
    implementation of those operations.  A concrete computable instance
    (`mathQ`) is provided for evaluation at concrete inputs.
  * In-place mutation of node `x`/`y` fields by the layout loop is modelled
    by a list of positions parallel to the (static) node list, updated with
    `List.set`; each read-modify-write of the source is performed in the
    same order as the source so that aliasing behaves identically.
  * `new Date().toISOString()` is modelled by an explicit `now : String`
    argument (the impure input of `generateMockGraphData`).
  * React state (`useState` cells of `GraphExplorer`) is modelled by the
    record `ExplorerState`; an event handler becomes a function from the
    state (plus the event's data) to the new state.
-/

namespace TKG

/-- Node kinds of the `GraphNode` TypeScript interface:
`'managed_object' | 'service' | 'event' | 'dependency'`. -/
inductive NodeType where
  | managed_object
  | service
  | event
  | dependency
deriving DecidableEq, Repr

/-- Property values appearing in the mock data: strings and numbers. -/
inductive PropValue where
  | s (v : String)
  | n (v : ℚ)
deriving DecidableEq, Repr

/-- The `GraphNode` interface: id, label, type, properties, optional x/y
(positions are absent until the layout pass writes them). -/
structure GraphNode where
  id : String
  label : String
  type : NodeType
  properties : List (String × PropValue)
  x : Option ℚ := none
  y : Option ℚ := none
deriving DecidableEq, Repr

/-- The `GraphEdge` interface: id, source, target, type, optional label. -/
structure GraphEdge where
  id : String
  source : String
  target : String
  type : String
  label : Option String := none
deriving DecidableEq, Repr

/-- The `GraphData` interface: `{ nodes, edges }`. -/
structure GraphData where
  nodes : List GraphNode
  edges : List GraphEdge
deriving DecidableEq, Repr

/-- Opaque numeric operations used by the engine (`Math.sqrt`, `Math.cos`,
`Math.sin`, `Math.PI`).  The embedding is parameterised over them. -/
structure MathOps where
  sqrt : ℚ → ℚ
  cos : ℚ → ℚ
  sin : ℚ → ℚ
  pi : ℚ

/-- A concrete `MathOps` instance used to evaluate the engine at concrete
inputs.  Its square-root stand-in agrees with the true square root at `0`
(the only value the concrete facts below depend on exactly) and, like the
true square root on the concrete distances involved, stays far above the
node radii for far-away points. -/
def mathQ : MathOps :=
  { sqrt := fun q => q / 2
    cos := fun _ => 1
    sin := fun _ => 0
    pi := 355 / 113 }

/-- Source `generateMockGraphData(centerObject)`: the deterministic synthetic graph
generator used when the backing API is unavailable.  `now` models the value
of `new Date().toISOString()` at call time (it only enters `properties`). -/
def generateMockGraphData (centerObject : String) (now : String) : GraphData :=
  { nodes :=
      [ { id := centerObject
          label := centerObject
          type := NodeType.managed_object
          properties :=
            [ ("status", PropValue.s "healthy")
            , ("region", PropValue.s "us-west-2")
            , ("environment", PropValue.s "production") ] }
      , { id := centerObject ++ "-api"
          label := centerObject ++ " API"
          type := NodeType.service
          properties :=
            [ ("status", PropValue.s "running")
            , ("port", PropValue.n 8080)
            , ("health", PropValue.s "healthy") ] }
      , { id := centerObject ++ "-db"
          label := centerObject ++ " Database"
          type := NodeType.service
          properties :=
            [ ("status", PropValue.s "running")
            , ("type", PropValue.s "postgresql")
            , ("health", PropValue.s "healthy") ] }
      , { id := centerObject ++ "-cache"
          label := centerObject ++ " Cache"
          type := NodeType.service
          properties :=
            [ ("status", PropValue.s "running")
            , ("type", PropValue.s "redis")
            , ("health", PropValue.s "healthy") ] }
      , { id := "evt-001"
          label := "CPU使用率告警"
          type := NodeType.event
          properties :=
            [ ("severity", PropValue.s "warning")
            , ("timestamp", PropValue.s now)
            , ("metric", PropValue.s "cpu_usage > 80%") ] }
      , { id := "evt-002"
          label := "响应时间异常"
          type := NodeType.event
          properties :=
            [ ("severity", PropValue.s "critical")
            , ("timestamp", PropValue.s now)
            , ("metric", PropValue.s "response_time > 2s") ] }
      , { id := "dep-001"
          label := "External API"
          type := NodeType.dependency
          properties :=
            [ ("type", PropValue.s "external")
            , ("endpoint", PropValue.s "https://api.external.com") ] } ]
    edges :=
      [ { id := "edge-1", source := centerObject, target := centerObject ++ "-api"
          type := "MANAGES", label := some "manages" }
      , { id := "edge-2", source := centerObject, target := centerObject ++ "-db"
          type := "MANAGES", label := some "manages" }
      , { id := "edge-3", source := centerObject, target := centerObject ++ "-cache"
          type := "MANAGES", label := some "manages" }
      , { id := "edge-4", source := "evt-001", target := centerObject
          type := "AFFECTS", label := some "affects" }
      , { id := "edge-5", source := "evt-002", target := centerObject ++ "-api"
          type := "AFFECTS", label := some "affects" }
      , { id := "edge-6", source := centerObject ++ "-api", target := "dep-001"
          type := "DEPENDS_ON", label := some "depends on" } ] }

/-- Source `generateGraphData(centerObject, apiData)`: the source discards the API
payload and returns the mock data ("暂时使用模拟数据"). -/
def generateGraphData (centerObject : String) (_apiData : Unit) (now : String) :
    GraphData :=
  generateMockGraphData centerObject now

/-! ### Layout engine (`applyForceLayout`)

The source mutates `node.x` / `node.y` in place.  We model positions as a
list `ps : List Pos` parallel to the (static) node list; reads of `nodes[i].x!`
become `posGet ps i` and writes become `List.set`. -/

/-- A 2-D position. -/
abbrev Pos := ℚ × ℚ

/-- Logical canvas width (`const width = 800`). -/
def canvasW : ℚ := 800

/-- Logical canvas height (`const height = 600`). -/
def canvasH : ℚ := 600

/-- Source `centerX = width / 2`. -/
def centerX : ℚ := canvasW / 2

/-- Source `centerY = height / 2`. -/
def centerY : ℚ := canvasH / 2

/-- Read a position at an index (`nodes[i].x!` / `nodes[i].y!`; the default
is never reached because every index used is below the list length). -/
def posGet (ps : List Pos) (i : Nat) : Pos := ps.getD i (0, 0)

/-- Initial layout radius by node kind:
`node.type === 'service' ? 150 : node.type === 'event' ? 100 : 200`. -/
def initRadius : NodeType → ℚ
  | NodeType.service => 150
  | NodeType.event => 100
  | _ => 200

/-- Initial position of the node at `index` in a graph of `n` nodes. -/
def initPos (m : MathOps) (n : Nat) (index : Nat) (node : GraphNode) : Pos :=
  if node.type = NodeType.managed_object then
    (centerX, centerY)
  else
    let angle := ((index : ℚ) / (n : ℚ)) * 2 * m.pi
    let radius := initRadius node.type
    (centerX + m.cos angle * radius, centerY + m.sin angle * radius)

/-- The `nodes.forEach((node, index) => ...)` initialization pass, carrying
the running index explicitly. -/
def initPositionsFrom (m : MathOps) (n : Nat) : Nat → List GraphNode → List Pos
  | _, [] => []
  | i, node :: rest => initPos m n i node :: initPositionsFrom m n (i + 1) rest

/-- Initial positions of all nodes. -/
def initPositions (m : MathOps) (nodes : List GraphNode) : List Pos :=
  initPositionsFrom m nodes.length 0 nodes

/-- The index pairs `(i, j)` with `i < j < n` visited by the repulsion double
loop, in the loop's order. -/
def upperPairs (n : Nat) : List (Nat × Nat) :=
  (List.range n).flatMap fun i =>
    ((List.range n).filter fun j => i < j).map fun j => (i, j)

/-- One repulsion update for the index pair `(i, j)`: inverse-square force
`1000 / distance²` along the connecting vector, applied to both nodes, with
the pair skipped unless `distance > 0`. -/
def repulsePair (m : MathOps) (ps : List Pos) (ij : Nat × Nat) : List Pos :=
  let a := posGet ps ij.1
  let b := posGet ps ij.2
  let dx := b.1 - a.1
  let dy := b.2 - a.2
  let distance := m.sqrt (dx * dx + dy * dy)
  if 0 < distance then
    let force := 1000 / (distance * distance)
    let fx := (dx / distance) * force
    let fy := (dy / distance) * force
    let ps1 := ps.set ij.1 (a.1 - fx, a.2 - fy)
    let b1 := posGet ps1 ij.2
    ps1.set ij.2 (b1.1 + fx, b1.2 + fy)
  else
    ps

/-- One full repulsion pass over all `i < j` pairs. -/
def repulseStep (m : MathOps) (n : Nat) (ps : List Pos) : List Pos :=
  (upperPairs n).foldl (repulsePair m) ps

/-- One attraction update for an edge: endpoints are looked up by id with
`nodes.find(...)`; if either is missing the edge is skipped; otherwise the
endpoints are pulled together with force `distance * 0.01`, guarded by
`distance > 0`. -/
def attractEdge (m : MathOps) (nodes : List GraphNode) (ps : List Pos)
    (edge : GraphEdge) : List Pos :=
  match nodes.findIdx? (fun nd => nd.id == edge.source),
      nodes.findIdx? (fun nd => nd.id == edge.target) with
  | some si, some ti =>
    let s := posGet ps si
    let t := posGet ps ti
    let dx := t.1 - s.1
    let dy := t.2 - s.2
    let distance := m.sqrt (dx * dx + dy * dy)
    if 0 < distance then
      let force := distance * (1 / 100)
      let fx := (dx / distance) * force
      let fy := (dy / distance) * force
      let ps1 := ps.set si (s.1 + fx, s.2 + fy)
      let t1 := posGet ps1 ti
      ps1.set ti (t1.1 - fx, t1.2 - fy)
    else
      ps
  | _, _ => ps

/-- The anchor pass: `nodes.find(n => n.type === 'managed_object')` and, when
found, its position is set back to `(centerX, centerY)`.  Structurally: the
first managed-object node's position is overwritten. -/
def anchorStep : List GraphNode → List Pos → List Pos
  | _, [] => []
  | [], ps => ps
  | node :: rest, p :: ps =>
    if node.type = NodeType.managed_object then
      (centerX, centerY) :: ps
    else
      p :: anchorStep rest ps

/-- One simulation step: repulsion pass, then attraction over every edge,
then the center anchor. -/
def layoutStep (m : MathOps) (nodes : List GraphNode) (edges : List GraphEdge)
    (ps : List Pos) : List Pos :=
  anchorStep nodes (edges.foldl (attractEdge m nodes) (repulseStep m nodes.length ps))

/-- Runs `k` simulation steps (the source's `for (let i = 0; i < 100; i++)`). -/
def layoutIter (m : MathOps) (nodes : List GraphNode) (edges : List GraphEdge) :
    Nat → List Pos → List Pos
  | 0, ps => ps
  | k + 1, ps => layoutStep m nodes edges (layoutIter m nodes edges k ps)

/-- Write the computed positions back into the node records (the source keeps
mutating the same node objects and returns `{ nodes, edges }`). -/
def assemble : List GraphNode → List Pos → List GraphNode
  | node :: rest, p :: ps =>
    { node with x := some p.1, y := some p.2 } :: assemble rest ps
  | _, _ => []

/-- Source `applyForceLayout(data)`: initialization, 100 simulation steps, and the
graph with updated node positions. -/
def applyForceLayout (m : MathOps) (data : GraphData) : GraphData :=
  { nodes :=
      assemble data.nodes
        (layoutIter m data.nodes data.edges 100 (initPositions m data.nodes))
    edges := data.edges }

/-! ### Component state, data acquisition, viewport and interaction -/

/-- The `useState` cells of `GraphExplorer` that the engine reads or writes. -/
structure ExplorerState where
  managedObject : String
  graphData : GraphData
  loading : Bool
  selectedNode : Option GraphNode
  zoom : ℚ
  panX : ℚ
  panY : ℚ
  isDragging : Bool
  dragStartX : ℚ
  dragStartY : ℚ
deriving Repr

/-- Outcome of the `fetch('/api/graph/managed-object', ...)` call: a
successful response with a JSON body, a non-ok response, or a thrown error. -/
inductive FetchResult where
  | ok (apiData : Unit)
  | httpError
  | exn
deriving DecidableEq, Repr

/-- The source's blank test `!managedObject.trim()`: a string trims to the
empty string exactly when every character is whitespace. -/
def isBlank (s : String) : Bool :=
  s.data.all Char.isWhitespace

/-- State effect of one completed `queryManagedObject()` run.  A blank
(`!managedObject.trim()`) query returns before touching any state; otherwise
`graphData` is replaced according to the fetch outcome and `loading` ends
`false` (the transient `loading = true` is not observable after completion). -/
def queryManagedObject (s : ExplorerState) (r : FetchResult) (now : String) :
    ExplorerState :=
  if isBlank s.managedObject then s
  else
    let gd :=
      match r with
      | FetchResult.ok d => generateGraphData s.managedObject d now
      | FetchResult.httpError => generateMockGraphData s.managedObject now
      | FetchResult.exn => generateMockGraphData s.managedObject now
    { s with graphData := gd, loading := false }

/-- Render radius by kind: `node.type === 'managed_object' ? 30 : 20`
(used identically by `drawNode` and the hit test). -/
def nodeRadius (t : NodeType) : ℚ :=
  if t = NodeType.managed_object then 30 else 20

/-- The hit-test predicate of `handleMouseDown`: the model-space click point
lies within the node's render radius (`Math.sqrt(dx*dx + dy*dy) <= radius`;
`node.x || 0` is `Option.getD 0`). -/
def nodeHit (m : MathOps) (x y : ℚ) (node : GraphNode) : Bool :=
  let dx := x - node.x.getD 0
  let dy := y - node.y.getD 0
  let radius := nodeRadius node.type
  decide (m.sqrt (dx * dx + dy * dy) ≤ radius)

/-- Source `graphData.nodes.find(node => ...)`: the hit test over the node list. -/
def hitTest (m : MathOps) (nodes : List GraphNode) (x y : ℚ) :
    Option GraphNode :=
  nodes.find? (nodeHit m x y)

/-- The map `screenToModel`: `((px - panX) / zoom, (py - panY) / zoom)`, as computed
at the top of `handleMouseDown` (with `px = clientX - rect.left` etc.). -/
def screenToModel (zoom panX panY px py : ℚ) : Pos :=
  ((px - panX) / zoom, (py - panY) / zoom)

/-- The map `modelToScreen`: the render transform of `drawGraph`
(`ctx.translate(pan.x, pan.y); ctx.scale(zoom, zoom)`), which maps a
model-space point `q` to the screen point `q * zoom + pan`. -/
def modelToScreen (zoom panX panY : ℚ) (q : Pos) : Pos :=
  (q.1 * zoom + panX, q.2 * zoom + panY)

/-- Source `handleMouseDown`: convert the click to model space, hit-test every node;
on a hit select that node, otherwise clear the selection and start panning. -/
def handleMouseDown (m : MathOps) (s : ExplorerState)
    (clientX clientY rectLeft rectTop : ℚ) : ExplorerState :=
  let x := (clientX - rectLeft - s.panX) / s.zoom
  let y := (clientY - rectTop - s.panY) / s.zoom
  match hitTest m s.graphData.nodes x y with
  | some node => { s with selectedNode := some node }
  | none =>
    { s with selectedNode := none, isDragging := true,
             dragStartX := clientX - s.panX, dragStartY := clientY - s.panY }

/-- Source `handleMouseMove`: while dragging, pan follows the pointer. -/
def handleMouseMove (s : ExplorerState) (clientX clientY : ℚ) : ExplorerState :=
  if s.isDragging then
    { s with panX := clientX - s.dragStartX, panY := clientY - s.dragStartY }
  else s

/-- Source `handleMouseUp`: stop dragging. -/
def handleMouseUp (s : ExplorerState) : ExplorerState :=
  { s with isDragging := false }

/-- Source `handleWheel`: multiply zoom by `0.9` (wheel down, `deltaY > 0`) or `1.1`
(wheel up), then clamp with `Math.max(0.1, Math.min(3, ...))`. -/
def handleWheel (zoom : ℚ) (deltaY : ℚ) : ℚ :=
  let delta := if 0 < deltaY then (9 : ℚ) / 10 else (11 : ℚ) / 10
  max (1 / 10) (min 3 (zoom * delta))

/-- A finite sequence of wheel events applied in order. -/
def applyWheels (zoom : ℚ) (deltas : List ℚ) : ℚ :=
  deltas.foldl handleWheel zoom

/-- Source `resetView`: restore the initial viewport. -/
def resetView (s : ExplorerState) : ExplorerState :=
  { s with zoom := 1, panX := 0, panY := 0 }

/-- The edge-drawing pass of `drawGraph`: for each edge, look up both
endpoints by id with `nodes.find(...)` and draw only when both exist.  The
result lists the `drawEdge(ctx, source, target, edge)` calls in order. -/
def drawnEdges (g : GraphData) : List (GraphNode × GraphNode × GraphEdge) :=
  g.edges.filterMap fun edge =>
    match g.nodes.find? (fun nd => nd.id == edge.source),
        g.nodes.find? (fun nd => nd.id == edge.target) with
    | some s, some t => some (s, t, edge)
    | _, _ => none

/-! ### Division-instrumented layout

The same layout pass with every division routed through `divQ`, which fails
(`none`) on a zero divisor.  Proving it equal to `some` of the plain pass
shows the source never divides by zero. -/

/-- Division that fails on a zero divisor. -/
def divQ (a b : ℚ) : Option ℚ :=
  if b = 0 then none else some (a / b)

/-- Variant of `repulsePair` with instrumented divisions. -/
def repulsePairChecked (m : MathOps) (ps : List Pos) (ij : Nat × Nat) :
    Option (List Pos) :=
  let a := posGet ps ij.1
  let b := posGet ps ij.2
  let dx := b.1 - a.1
  let dy := b.2 - a.2
  let distance := m.sqrt (dx * dx + dy * dy)
  if 0 < distance then do
    let force ← divQ 1000 (distance * distance)
    let fx0 ← divQ dx distance
    let fy0 ← divQ dy distance
    let fx := fx0 * force
    let fy := fy0 * force
    let ps1 := ps.set ij.1 (a.1 - fx, a.2 - fy)
    let b1 := posGet ps1 ij.2
    pure (ps1.set ij.2 (b1.1 + fx, b1.2 + fy))
  else
    pure ps

/-- Variant of `repulseStep` with instrumented divisions. -/
def repulseStepChecked (m : MathOps) (n : Nat) (ps : List Pos) :
    Option (List Pos) :=
  (upperPairs n).foldlM (repulsePairChecked m) ps

/-- Variant of `attractEdge` with instrumented divisions. -/
def attractEdgeChecked (m : MathOps) (nodes : List GraphNode) (ps : List Pos)
    (edge : GraphEdge) : Option (List Pos) :=
  match nodes.findIdx? (fun nd => nd.id == edge.source),
      nodes.findIdx? (fun nd => nd.id == edge.target) with
  | some si, some ti =>
    let s := posGet ps si
    let t := posGet ps ti
    let dx := t.1 - s.1
    let dy := t.2 - s.2
    let distance := m.sqrt (dx * dx + dy * dy)
    if 0 < distance then do
      let force := distance * (1 / 100)
      let fx0 ← divQ dx distance
      let fy0 ← divQ dy distance
      let fx := fx0 * force
      let fy := fy0 * force
      let ps1 := ps.set si (s.1 + fx, s.2 + fy)
      let t1 := posGet ps1 ti
      pure (ps1.set ti (t1.1 - fx, t1.2 - fy))
    else
      pure ps
  | _, _ => pure ps

/-- Variant of `layoutStep` with instrumented divisions. -/
def layoutStepChecked (m : MathOps) (nodes : List GraphNode)
    (edges : List GraphEdge) (ps : List Pos) : Option (List Pos) := do
  let ps1 ← repulseStepChecked m nodes.length ps
  let ps2 ← edges.foldlM (attractEdgeChecked m nodes) ps1
  pure (anchorStep nodes ps2)

/-- Variant of `layoutIter` with instrumented divisions. -/
def layoutIterChecked (m : MathOps) (nodes : List GraphNode)
    (edges : List GraphEdge) : Nat → List Pos → Option (List Pos)
  | 0, ps => pure ps
  | k + 1, ps => do
    let q ← layoutIterChecked m nodes edges k ps
    layoutStepChecked m nodes edges q

/-- Variant of `applyForceLayout` with instrumented divisions. -/
def applyForceLayoutChecked (m : MathOps) (data : GraphData) :
    Option GraphData := do
  let ps ← layoutIterChecked m data.nodes data.edges 100
    (initPositions m data.nodes)
  pure { nodes := assemble data.nodes ps, edges := data.edges }

/-! ### Helper lemmas -/

theorem centerX_eq : centerX = 400 := by norm_num [centerX, canvasW]

theorem centerY_eq : centerY = 300 := by norm_num [centerY, canvasH]

theorem length_repulsePair (m : MathOps) (ps : List Pos) (ij : Nat × Nat) :
    (repulsePair m ps ij).length = ps.length := by
  unfold repulsePair
  dsimp only
  split
  · simp
  · rfl

theorem length_foldl_repulse (m : MathOps) :
    ∀ (l : List (Nat × Nat)) (ps : List Pos),
      (l.foldl (repulsePair m) ps).length = ps.length := by
  intro l
  induction l with
  | nil => intro ps; rfl
  | cons ij l ih =>
    intro ps
    simp only [List.foldl_cons]
    rw [ih, length_repulsePair]

theorem length_repulseStep (m : MathOps) (n : Nat) (ps : List Pos) :
    (repulseStep m n ps).length = ps.length :=
  length_foldl_repulse m (upperPairs n) ps

theorem length_attractEdge (m : MathOps) (nodes : List GraphNode)
    (ps : List Pos) (edge : GraphEdge) :
    (attractEdge m nodes ps edge).length = ps.length := by
  unfold attractEdge
  split
  · dsimp only
    split
    · simp
    · rfl
  · rfl

theorem length_foldl_attract (m : MathOps) (nodes : List GraphNode) :
    ∀ (l : List GraphEdge) (ps : List Pos),
      (l.foldl (attractEdge m nodes) ps).length = ps.length := by
  intro l
  induction l with
  | nil => intro ps; rfl
  | cons e l ih =>
    intro ps
    simp only [List.foldl_cons]
    rw [ih, length_attractEdge]

theorem length_anchorStep :
    ∀ (nodes : List GraphNode) (ps : List Pos),
      (anchorStep nodes ps).length = ps.length := by
  intro nodes
  induction nodes with
  | nil => intro ps; cases ps <;> rfl
  | cons n rest ih =>
    intro ps
    cases ps with
    | nil => rfl
    | cons p ps =>
      unfold anchorStep
      split
      · simp
      · simp [ih]

theorem length_layoutStep (m : MathOps) (nodes : List GraphNode)
    (edges : List GraphEdge) (ps : List Pos) :
    (layoutStep m nodes edges ps).length = ps.length := by
  unfold layoutStep
  rw [length_anchorStep, length_foldl_attract, length_repulseStep]

theorem length_layoutIter (m : MathOps) (nodes : List GraphNode)
    (edges : List GraphEdge) :
    ∀ (k : Nat) (ps : List Pos),
      (layoutIter m nodes edges k ps).length = ps.length := by
  intro k
  induction k with
  | zero => intro ps; rfl
  | succ k ih =>
    intro ps
    unfold layoutIter
    rw [length_layoutStep, ih]

theorem length_initPositionsFrom (m : MathOps) (n : Nat) :
    ∀ (nodes : List GraphNode) (i : Nat),
      (initPositionsFrom m n i nodes).length = nodes.length := by
  intro nodes
  induction nodes with
  | nil => intro i; rfl
  | cons nd rest ih =>
    intro i
    unfold initPositionsFrom
    simp [ih]

theorem length_initPositions (m : MathOps) (nodes : List GraphNode) :
    (initPositions m nodes).length = nodes.length :=
  length_initPositionsFrom m nodes.length nodes 0

theorem assemble_mem_type :
    ∀ (nodes : List GraphNode) (ps : List Pos) (nd : GraphNode),
      nd ∈ assemble nodes ps →
      ∃ n0, n0 ∈ nodes ∧ nd.type = n0.type ∧ nd.id = n0.id := by
  intro nodes
  induction nodes with
  | nil => intro ps nd h; cases ps <;> simp [assemble] at h
  | cons n rest ih =>
    intro ps nd h
    cases ps with
    | nil => simp [assemble] at h
    | cons p ps =>
      simp only [assemble, List.mem_cons] at h
      rcases h with h | h
      · exact ⟨n, List.mem_cons_self n rest, by simp [h], by simp [h]⟩
      · rcases ih ps nd h with ⟨n0, hmem, hty, hid⟩
        exact ⟨n0, List.mem_cons_of_mem n hmem, hty, hid⟩

theorem anchorStep_cons (n : GraphNode) (rest : List GraphNode) (p : Pos)
    (ps : List Pos) :
    anchorStep (n :: rest) (p :: ps) =
      if n.type = NodeType.managed_object then (centerX, centerY) :: ps
      else p :: anchorStep rest ps := by
  rfl

theorem anchor_assemble_center :
    ∀ (nodes : List GraphNode) (ps : List Pos),
      ps.length = nodes.length →
      nodes.countP (fun nd => nd.type == NodeType.managed_object) = 1 →
      ∀ nd ∈ assemble nodes (anchorStep nodes ps),
        nd.type = NodeType.managed_object →
        nd.x = some centerX ∧ nd.y = some centerY := by
  intro nodes
  induction nodes with
  | nil => intro ps hlen hone; simp at hone
  | cons n rest ih =>
    intro ps hlen hone nd hmem hty
    cases ps with
    | nil => simp at hlen
    | cons p ps =>
      simp only [List.length_cons, Nat.succ.injEq] at hlen
      by_cases hc : n.type = NodeType.managed_object
      · have hrest : rest.countP (fun nd => nd.type == NodeType.managed_object) = 0 := by
          rw [List.countP_cons] at hone
          simp only [hc, beq_self_eq_true, if_true] at hone
          omega
        rw [anchorStep_cons, if_pos hc] at hmem
        simp only [assemble, List.mem_cons] at hmem
        rcases hmem with h | h
        · subst h; exact ⟨rfl, rfl⟩
        · exfalso
          rcases assemble_mem_type rest ps nd h with ⟨n0, hmem0, htyeq, _⟩
          have := List.countP_eq_zero.mp hrest n0 hmem0
          simp [← htyeq, hty] at this
      · have hrest : rest.countP (fun nd => nd.type == NodeType.managed_object) = 1 := by
          rw [List.countP_cons] at hone
          simp only [beq_iff_eq, hc, if_false] at hone
          omega
        rw [anchorStep_cons, if_neg hc] at hmem
        simp only [assemble, List.mem_cons] at hmem
        rcases hmem with h | h
        · exfalso; apply hc; rw [← hty, h]
        · exact ih ps hlen hrest nd h hty

theorem layoutIter_succ (m : MathOps) (nodes : List GraphNode)
    (edges : List GraphEdge) (k : Nat) (ps : List Pos) :
    layoutIter m nodes edges (k + 1) ps =
      layoutStep m nodes edges (layoutIter m nodes edges k ps) := by
  rfl

theorem layout_center_spec (m : MathOps) (g : GraphData)
    (hone : g.nodes.countP (fun nd => nd.type == NodeType.managed_object) = 1) :
    ∀ nd ∈ (applyForceLayout m g).nodes, nd.type = NodeType.managed_object →
      nd.x = some 400 ∧ nd.y = some 300 := by
  intro nd hmem hty
  have hsplit : layoutIter m g.nodes g.edges 100 (initPositions m g.nodes) =
      anchorStep g.nodes (g.edges.foldl (attractEdge m g.nodes)
        (repulseStep m g.nodes.length
          (layoutIter m g.nodes g.edges 99 (initPositions m g.nodes)))) := by
    rw [show (100 : Nat) = 99 + 1 from rfl, layoutIter_succ]
    rfl
  have hlen : (g.edges.foldl (attractEdge m g.nodes)
      (repulseStep m g.nodes.length
        (layoutIter m g.nodes g.edges 99 (initPositions m g.nodes)))).length =
      g.nodes.length := by
    rw [length_foldl_attract, length_repulseStep, length_layoutIter,
      length_initPositions]
  have hmem2 : nd ∈ assemble g.nodes (anchorStep g.nodes
      (g.edges.foldl (attractEdge m g.nodes)
        (repulseStep m g.nodes.length
          (layoutIter m g.nodes g.edges 99 (initPositions m g.nodes))))) := by
    have heq : (applyForceLayout m g).nodes = assemble g.nodes (anchorStep g.nodes
        (g.edges.foldl (attractEdge m g.nodes)
          (repulseStep m g.nodes.length
            (layoutIter m g.nodes g.edges 99 (initPositions m g.nodes))))) := by
      unfold applyForceLayout
      rw [hsplit]
    rwa [heq] at hmem
  have hres := anchor_assemble_center g.nodes _ hlen hone nd hmem2 hty
  rwa [centerX_eq, centerY_eq] at hres

/-- C4: for every input graph containing exactly one managed-object
(center-kind) node, after the fixed-iteration layout pass every
managed-object node of the result — that is, the unique center node — has
position exactly `(400, 300)`, the logical canvas center. -/
theorem center_node_anchored_after_layout (m : MathOps) (g : GraphData)
    (hone : g.nodes.countP (fun nd => nd.type == NodeType.managed_object) = 1) :
    ∀ nd ∈ (applyForceLayout m g).nodes, nd.type = NodeType.managed_object →
      nd.x = some 400 ∧ nd.y = some 300 :=
  layout_center_spec m g hone

/-- Witness for C4 at the concrete mock graph for root `svc-a`. -/
theorem center_node_anchored_after_layout_witness :
    (generateMockGraphData "svc-a" "2024-01-01").nodes.countP
        (fun nd => nd.type == NodeType.managed_object) = 1 ∧
    (∀ nd ∈ (applyForceLayout mathQ
        (generateMockGraphData "svc-a" "2024-01-01")).nodes,
      nd.type = NodeType.managed_object →
        nd.x = some 400 ∧ nd.y = some 300) :=
  ⟨by decide, center_node_anchored_after_layout mathQ
    (generateMockGraphData "svc-a" "2024-01-01") (by decide)⟩

theorem assemble_cons (n : GraphNode) (rest : List GraphNode) (q : Pos)
    (qs : List Pos) :
    assemble (n :: rest) (q :: qs) =
      { n with x := some q.1, y := some q.2 } :: assemble rest qs := by
  rfl

theorem find_by_id_head (n : GraphNode) (rest : List GraphNode) (q : Pos)
    (qs : List Pos) (wanted : String) (hid : n.id = wanted) :
    (assemble (n :: rest) (q :: qs)).find? (fun nd => nd.id == wanted) =
      some { n with x := some q.1, y := some q.2 } := by
  rw [assemble_cons]
  simp [List.find?_cons, hid]

/-- C5: querying root `svc-a` with the backing service unavailable produces
the mock graph with exactly one managed-object node `svc-a`, the three
service nodes `svc-a-api`, `svc-a-db`, `svc-a-cache`, two event nodes, one
dependency node, and six edges of kinds MANAGES×3, AFFECTS×2, DEPENDS_ON×1;
after the layout pass the `svc-a` node sits at the canvas center
`(400, 300)`. -/
theorem mock_query_scenario (m : MathOps) (now : String) :
    ((generateMockGraphData "svc-a" now).nodes.filter
        (fun nd => nd.type == NodeType.managed_object)).map GraphNode.id =
      ["svc-a"] ∧
    ((generateMockGraphData "svc-a" now).nodes.filter
        (fun nd => nd.type == NodeType.service)).map GraphNode.id =
      ["svc-a-api", "svc-a-db", "svc-a-cache"] ∧
    (generateMockGraphData "svc-a" now).nodes.countP
        (fun nd => nd.type == NodeType.event) = 2 ∧
    (generateMockGraphData "svc-a" now).nodes.countP
        (fun nd => nd.type == NodeType.dependency) = 1 ∧
    (generateMockGraphData "svc-a" now).edges.map GraphEdge.type =
      ["MANAGES", "MANAGES", "MANAGES", "AFFECTS", "AFFECTS", "DEPENDS_ON"] ∧
    ((applyForceLayout m (generateMockGraphData "svc-a" now)).nodes.find?
        (fun nd => nd.id == "svc-a")).map (fun nd => (nd.x, nd.y)) =
      some (some 400, some 300) := by
  refine ⟨rfl, rfl, rfl, rfl, rfl, ?_⟩
  obtain ⟨c0, rest0, hgn, hid0, hty0⟩ :
      ∃ c0 rest0, (generateMockGraphData "svc-a" now).nodes = c0 :: rest0 ∧
        c0.id = "svc-a" ∧ c0.type = NodeType.managed_object :=
    ⟨_, _, rfl, rfl, rfl⟩
  have hone : (generateMockGraphData "svc-a" now).nodes.countP
      (fun nd => nd.type == NodeType.managed_object) = 1 := rfl
  have hlen : (layoutIter m (generateMockGraphData "svc-a" now).nodes
      (generateMockGraphData "svc-a" now).edges 100
      (initPositions m (generateMockGraphData "svc-a" now).nodes)).length =
      (generateMockGraphData "svc-a" now).nodes.length := by
    rw [length_layoutIter, length_initPositions]
  obtain ⟨q, qs, hq⟩ :
      ∃ q qs, layoutIter m (generateMockGraphData "svc-a" now).nodes
        (generateMockGraphData "svc-a" now).edges 100
        (initPositions m (generateMockGraphData "svc-a" now).nodes) =
        q :: qs := by
    rcases heq : layoutIter m (generateMockGraphData "svc-a" now).nodes
        (generateMockGraphData "svc-a" now).edges 100
        (initPositions m (generateMockGraphData "svc-a" now).nodes) with _ | ⟨q, qs⟩
    · rw [heq, hgn] at hlen
      simp at hlen
    · exact ⟨q, qs, rfl⟩
  have hAF : (applyForceLayout m (generateMockGraphData "svc-a" now)).nodes =
      assemble (c0 :: rest0) (q :: qs) := by
    unfold applyForceLayout
    rw [← hgn, hq]
  have hfind : (applyForceLayout m (generateMockGraphData "svc-a" now)).nodes.find?
      (fun nd => nd.id == "svc-a") =
      some { c0 with x := some q.1, y := some q.2 } := by
    rw [hAF]
    exact find_by_id_head c0 rest0 q qs "svc-a" hid0
  have hmem : { c0 with x := some q.1, y := some q.2 } ∈
      (applyForceLayout m (generateMockGraphData "svc-a" now)).nodes := by
    rw [hAF, assemble_cons]
    exact List.mem_cons_self _ _
  have hcenter := layout_center_spec m (generateMockGraphData "svc-a" now) hone
    { c0 with x := some q.1, y := some q.2 } hmem (by simpa using hty0)
  rw [hfind]
  simp only [Option.map]
  have h1 : some q.1 = some (400 : ℚ) := hcenter.1
  have h2 : some q.2 = some (300 : ℚ) := hcenter.2
  rw [Option.some.inj h1, Option.some.inj h2]

/-! ### Claims C1 (selection lifecycle), C2 (initial placement), C3 (hit test) -/

/-- A node record used as a previously selected node in concrete states. -/
def sampleSelectedNode : GraphNode :=
  { id := "svc-a", label := "svc-a", type := NodeType.managed_object
    properties := [] }

/-- A concrete component state with root name `svc-a` and a current
selection whose id also exists in the graph produced by a new query. -/
def sampleState : ExplorerState :=
  { managedObject := "svc-a"
    graphData := { nodes := [], edges := [] }
    loading := false
    selectedNode := some sampleSelectedNode
    zoom := 1, panX := 0, panY := 0
    isDragging := false, dragStartX := 0, dragStartY := 0 }

/-- C1 counterexample: a completed non-blank query replaces the graph (the
new graph even contains the selected node's id `svc-a`) yet the selection is
NOT reset to `none` — `queryManagedObject` never touches `selectedNode`. -/
theorem query_keeps_selection_counterexample :
    isBlank sampleState.managedObject = false ∧
    "svc-a" ∈ (queryManagedObject sampleState FetchResult.httpError
      "2024-01-01").graphData.nodes.map GraphNode.id ∧
    (queryManagedObject sampleState FetchResult.httpError
      "2024-01-01").selectedNode ≠ none := by
  refine ⟨?_, ?_, ?_⟩ <;> decide

/-- C1 (amended): completing a root-object query with a non-blank name
replaces the whole graph with the generator's output but leaves the
selection unchanged: the previously selected node stays selected. -/
theorem query_replaces_graph_keeps_selection (s : ExplorerState)
    (r : FetchResult) (now : String) (h : isBlank s.managedObject = false) :
    (queryManagedObject s r now).graphData =
      generateMockGraphData s.managedObject now ∧
    (queryManagedObject s r now).selectedNode = s.selectedNode := by
  unfold queryManagedObject
  rw [h]
  cases r <;> exact ⟨rfl, rfl⟩

/-- Witness for the amended C1 at a concrete state. -/
theorem query_replaces_graph_keeps_selection_witness :
    isBlank sampleState.managedObject = false ∧
    ((queryManagedObject sampleState FetchResult.exn "2024-01-01").graphData =
        generateMockGraphData "svc-a" "2024-01-01" ∧
      (queryManagedObject sampleState FetchResult.exn
        "2024-01-01").selectedNode = some sampleSelectedNode) :=
  ⟨by decide, query_replaces_graph_keeps_selection sampleState FetchResult.exn
    "2024-01-01" (by decide)⟩

/-- C2 counterexample: the per-kind initial radii are `service = 150`,
`event = 100`, `dependency = 200`, so event-kind nodes sit on a SMALLER
circle than service-kind nodes, contradicting the claimed ordering
(service inner, event larger). -/
theorem init_radius_order_counterexample :
    initRadius NodeType.event < initRadius NodeType.service ∧
    ¬ initRadius NodeType.service < initRadius NodeType.event := by
  constructor <;> norm_num [initRadius]

theorem initPositionsFrom_get (m : MathOps) (n : Nat) :
    ∀ (nodes : List GraphNode) (i0 i : Nat) (h : i < nodes.length),
      posGet (initPositionsFrom m n i0 nodes) i =
        initPos m n (i0 + i) (nodes.get ⟨i, h⟩) := by
  intro nodes
  induction nodes with
  | nil => intro i0 i h; simp at h
  | cons nd rest ih =>
    intro i0 i h
    cases i with
    | zero => simp [initPositionsFrom, posGet]
    | succ i =>
      have hh : i < rest.length := by simpa using h
      have hrec := ih (i0 + 1) i hh
      simp only [initPositionsFrom, posGet, List.getD_cons_succ] at hrec ⊢
      rw [hrec]
      congr 1
      omega

/-- C2 (amended): every non-center node at index `i` of an `n`-node graph is
initialized on a circle around the canvas center at angle
`(i / n) * 2π` with radius determined by its kind, and the radii are
ordered with event-kind innermost (100), service-kind next (150) and
dependency-kind outermost (200). -/
theorem init_placement_on_circle (m : MathOps) (nodes : List GraphNode)
    (i : Nat) (h : i < nodes.length)
    (hnc : (nodes.get ⟨i, h⟩).type ≠ NodeType.managed_object) :
    posGet (initPositions m nodes) i =
      (centerX + m.cos (((i : ℚ) / (nodes.length : ℚ)) * 2 * m.pi) *
          initRadius (nodes.get ⟨i, h⟩).type,
        centerY + m.sin (((i : ℚ) / (nodes.length : ℚ)) * 2 * m.pi) *
          initRadius (nodes.get ⟨i, h⟩).type) ∧
    initRadius NodeType.event < initRadius NodeType.service ∧
    initRadius NodeType.service < initRadius NodeType.dependency := by
  refine ⟨?_, by norm_num [initRadius], by norm_num [initRadius]⟩
  have hget := initPositionsFrom_get m nodes.length nodes 0 i h
  rw [Nat.zero_add] at hget
  rw [initPositions, hget, initPos, if_neg hnc]

/-- Witness for the amended C2 at index 1 (the service node `svc-a-api`)
of the mock graph. -/
theorem init_placement_on_circle_witness :
    ((generateMockGraphData "svc-a" "2024-01-01").nodes.get
        ⟨1, by decide⟩).type ≠ NodeType.managed_object ∧
    (posGet (initPositions mathQ
        (generateMockGraphData "svc-a" "2024-01-01").nodes) 1 =
      (centerX + mathQ.cos (((1 : Nat) : ℚ) /
            (((generateMockGraphData "svc-a" "2024-01-01").nodes.length : Nat) : ℚ) *
            2 * mathQ.pi) *
          initRadius ((generateMockGraphData "svc-a" "2024-01-01").nodes.get
            ⟨1, by decide⟩).type,
        centerY + mathQ.sin (((1 : Nat) : ℚ) /
            (((generateMockGraphData "svc-a" "2024-01-01").nodes.length : Nat) : ℚ) *
            2 * mathQ.pi) *
          initRadius ((generateMockGraphData "svc-a" "2024-01-01").nodes.get
            ⟨1, by decide⟩).type) ∧
      initRadius NodeType.event < initRadius NodeType.service ∧
      initRadius NodeType.service < initRadius NodeType.dependency) :=
  ⟨by decide, init_placement_on_circle mathQ
    (generateMockGraphData "svc-a" "2024-01-01").nodes 1 (by decide) (by decide)⟩

/-- First of two exactly overlapping nodes. -/
def nodeA : GraphNode :=
  { id := "a", label := "A", type := NodeType.service, properties := []
    x := some 100, y := some 100 }

/-- Second of two exactly overlapping nodes. -/
def nodeB : GraphNode :=
  { id := "b", label := "B", type := NodeType.service, properties := []
    x := some 100, y := some 100 }

/-- A state whose graph holds the two overlapping nodes, with identity
viewport. -/
def overlapState : ExplorerState :=
  { managedObject := ""
    graphData := { nodes := [nodeA, nodeB], edges := [] }
    loading := false
    selectedNode := none
    zoom := 1, panX := 0, panY := 0
    isDragging := false, dragStartX := 0, dragStartY := 0 }

/-- A node far from the click point, placed before the matching nodes. -/
def nodeFar : GraphNode :=
  { id := "far", label := "Far", type := NodeType.service, properties := []
    x := some 500, y := some 500 }

theorem nodeRadius_service : nodeRadius NodeType.service = 20 := rfl

theorem nodeHit_at_nodeA : nodeHit mathQ 100 100 nodeA = true := by
  simp only [nodeHit, nodeA, mathQ, nodeRadius_service, Option.getD_some,
    decide_eq_true_eq]
  norm_num

theorem nodeHit_at_nodeB : nodeHit mathQ 100 100 nodeB = true := by
  simp only [nodeHit, nodeB, mathQ, nodeRadius_service, Option.getD_some,
    decide_eq_true_eq]
  norm_num

theorem nodeHit_at_nodeFar : nodeHit mathQ 100 100 nodeFar = false := by
  simp only [nodeHit, nodeFar, mathQ, nodeRadius_service, Option.getD_some]
  norm_num

/-- C3 counterexample: a pointer-down at `(100, 100)` hits both overlapping
nodes; the last matching node in the sequence is `nodeB`, but the hit test
(`Array.prototype.find`) selects the FIRST matching node `nodeA`. -/
theorem hit_test_last_match_counterexample :
    nodeHit mathQ 100 100 nodeA = true ∧
    nodeHit mathQ 100 100 nodeB = true ∧
    (overlapState.graphData.nodes.filter (nodeHit mathQ 100 100)).getLast? =
      some nodeB ∧
    (handleMouseDown mathQ overlapState 100 100 0 0).selectedNode =
      some nodeA ∧
    nodeA ≠ nodeB := by
  have hA := nodeHit_at_nodeA
  have hB := nodeHit_at_nodeB
  refine ⟨hA, hB, ?_, ?_, by decide⟩
  · rw [show overlapState.graphData.nodes = [nodeA, nodeB] from rfl]
    rw [List.filter_cons_of_pos hA, List.filter_cons_of_pos hB]
    rfl
  · have hx : ((100 : ℚ) - 0 - overlapState.panX) / overlapState.zoom = 100 := by
      norm_num [overlapState]
    have hfind : hitTest mathQ overlapState.graphData.nodes
        (((100 : ℚ) - 0 - overlapState.panX) / overlapState.zoom)
        (((100 : ℚ) - 0 - overlapState.panY) / overlapState.zoom) =
        some nodeA := by
      rw [hx, show ((100 : ℚ) - 0 - overlapState.panY) / overlapState.zoom = 100
        from hx]
      simp only [hitTest]
      rw [show overlapState.graphData.nodes = [nodeA, nodeB] from rfl,
        List.find?_cons_of_pos _ hA]
    simp only [handleMouseDown]
    rw [hfind]

theorem find_of_prefix_miss {α : Type} (p : α → Bool) :
    ∀ (pre : List α) (a : α) (post : List α),
      (∀ b ∈ pre, p b = false) → p a = true →
      List.find? p (pre ++ a :: post) = some a := by
  intro pre
  induction pre with
  | nil =>
    intro a post _ hhit
    simpa [List.find?_cons] using List.find?_cons_of_pos post hhit
  | cons b pre ih =>
    intro a post hmiss hhit
    have hb : p b = false := hmiss b (List.mem_cons_self b pre)
    rw [List.cons_append, List.find?_cons_of_neg _ (by simp [hb])]
    exact ih a post (fun c hc => hmiss c (List.mem_cons_of_mem b hc)) hhit

/-- C3 (amended): when the model-space pointer-down point lies within the
render radius of a node `a` and of no node before `a` in the graph's node
sequence, the hit test sets the selection to `a` — the FIRST matching node
wins, regardless of any later matching nodes. -/
theorem hit_test_first_match (m : MathOps) (s : ExplorerState)
    (clientX clientY rectLeft rectTop : ℚ) (a : GraphNode)
    (pre post : List GraphNode)
    (hsplit : s.graphData.nodes = pre ++ a :: post)
    (hmiss : ∀ b ∈ pre,
      nodeHit m ((clientX - rectLeft - s.panX) / s.zoom)
        ((clientY - rectTop - s.panY) / s.zoom) b = false)
    (hhit : nodeHit m ((clientX - rectLeft - s.panX) / s.zoom)
      ((clientY - rectTop - s.panY) / s.zoom) a = true) :
    (handleMouseDown m s clientX clientY rectLeft rectTop).selectedNode =
      some a := by
  have hfind : hitTest m s.graphData.nodes
      ((clientX - rectLeft - s.panX) / s.zoom)
      ((clientY - rectTop - s.panY) / s.zoom) = some a := by
    unfold hitTest
    rw [hsplit]
    exact find_of_prefix_miss _ pre a post hmiss hhit
  simp only [handleMouseDown]
  rw [hfind]

/-- A state whose graph holds a non-matching node followed by two matching
nodes. -/
def tripleState : ExplorerState :=
  { managedObject := ""
    graphData := { nodes := [nodeFar, nodeA, nodeB], edges := [] }
    loading := false
    selectedNode := none
    zoom := 1, panX := 0, panY := 0
    isDragging := false, dragStartX := 0, dragStartY := 0 }

/-- Witness for the amended C3: with a non-matching node first, the first
matching node `nodeA` is selected even though `nodeB` also matches. -/
theorem hit_test_first_match_witness :
    tripleState.graphData.nodes = [nodeFar] ++ nodeA :: [nodeB] ∧
    (∀ b ∈ [nodeFar],
      nodeHit mathQ ((100 - 0 - tripleState.panX) / tripleState.zoom)
        ((100 - 0 - tripleState.panY) / tripleState.zoom) b = false) ∧
    nodeHit mathQ ((100 - 0 - tripleState.panX) / tripleState.zoom)
      ((100 - 0 - tripleState.panY) / tripleState.zoom) nodeA = true ∧
    (handleMouseDown mathQ tripleState 100 100 0 0).selectedNode =
      some nodeA := by
  have hx : ((100 : ℚ) - 0 - tripleState.panX) / tripleState.zoom = 100 := by
    norm_num [tripleState]
  have hy : ((100 : ℚ) - 0 - tripleState.panY) / tripleState.zoom = 100 := hx
  have hmiss : ∀ b ∈ [nodeFar],
      nodeHit mathQ (((100 : ℚ) - 0 - tripleState.panX) / tripleState.zoom)
        (((100 : ℚ) - 0 - tripleState.panY) / tripleState.zoom) b = false := by
    intro b hb
    rw [hx, hy, List.mem_singleton.mp hb]
    exact nodeHit_at_nodeFar
  have hhit : nodeHit mathQ
      (((100 : ℚ) - 0 - tripleState.panX) / tripleState.zoom)
      (((100 : ℚ) - 0 - tripleState.panY) / tripleState.zoom) nodeA = true := by
    rw [hx, hy]
    exact nodeHit_at_nodeA
  exact ⟨rfl, hmiss, hhit,
    hit_test_first_match mathQ tripleState 100 100 0 0 nodeA [nodeFar]
      [nodeB] rfl hmiss hhit⟩

/-! ### Claims C6 (determinism), C7 (zoom clamp), C8 (viewport round-trip) -/

/-- C6: for a fixed root name, any two runs of the synthetic generator
(differing only in the impure timestamp) return identical node ids,
identical edge ids, and identical edge source/target endpoints. -/
theorem mock_generator_deterministic (root now1 now2 : String) :
    (generateMockGraphData root now1).nodes.map GraphNode.id =
      (generateMockGraphData root now2).nodes.map GraphNode.id ∧
    (generateMockGraphData root now1).edges.map GraphEdge.id =
      (generateMockGraphData root now2).edges.map GraphEdge.id ∧
    (generateMockGraphData root now1).edges.map
        (fun e => (e.source, e.target)) =
      (generateMockGraphData root now2).edges.map
        (fun e => (e.source, e.target)) :=
  ⟨rfl, rfl, rfl⟩

theorem handleWheel_bounds (z d : ℚ) :
    1 / 10 ≤ handleWheel z d ∧ handleWheel z d ≤ 3 := by
  unfold handleWheel
  refine ⟨le_max_left _ _, max_le (by norm_num) (min_le_left _ _)⟩

/-- C7: starting from any zoom in `[0.1, 3]`, any finite sequence of wheel
events (each multiplying by 0.9 or 1.1 and clamping) leaves the zoom in
`[0.1, 3]`. -/
theorem zoom_stays_clamped (z : ℚ) (deltas : List ℚ)
    (h : 1 / 10 ≤ z ∧ z ≤ 3) :
    1 / 10 ≤ applyWheels z deltas ∧ applyWheels z deltas ≤ 3 := by
  induction deltas generalizing z with
  | nil => exact h
  | cons d ds ih =>
    have hstep := handleWheel_bounds z d
    have : applyWheels z (d :: ds) = applyWheels (handleWheel z d) ds := rfl
    rw [this]
    exact ih (handleWheel z d) hstep

/-- Witness for C7: zoom 1 with a wheel-in then two wheel-outs stays in
range. -/
theorem zoom_stays_clamped_witness :
    ((1 : ℚ) / 10 ≤ 1 ∧ (1 : ℚ) ≤ 3) ∧
    (1 / 10 ≤ applyWheels 1 [-3, 5, 2] ∧ applyWheels 1 [-3, 5, 2] ≤ 3) :=
  ⟨by norm_num, zoom_stays_clamped 1 [-3, 5, 2] (by norm_num)⟩

/-- C8: for every screen point and every viewport with positive zoom,
mapping screen → model → screen returns the original point exactly. -/
theorem viewport_round_trip (zoom panX panY px py : ℚ) (h : 0 < zoom) :
    modelToScreen zoom panX panY (screenToModel zoom panX panY px py) =
      (px, py) := by
  have hz : zoom ≠ 0 := ne_of_gt h
  unfold modelToScreen screenToModel
  rw [Prod.mk.injEq]
  constructor <;> field_simp

/-- Witness for C8 at zoom 2, pan (5, 7), screen point (11, 13). -/
theorem viewport_round_trip_witness :
    (0 : ℚ) < 2 ∧
    modelToScreen 2 5 7 (screenToModel 2 5 7 11 13) = (11, 13) :=
  ⟨by norm_num, viewport_round_trip 2 5 7 11 13 (by norm_num)⟩

/-! ### Claim C9 (division safety of the layout pass) -/

theorem foldlM_eq_some {α β : Type} (f : β → α → Option β) (g : β → α → β)
    (hfg : ∀ b a, f b a = some (g b a)) :
    ∀ (l : List α) (b : β), l.foldlM f b = some (l.foldl g b) := by
  intro l
  induction l with
  | nil => intro b; rfl
  | cons a l ih =>
    intro b
    rw [List.foldlM_cons, hfg, List.foldl_cons]
    simp only [Option.bind_eq_bind, Option.some_bind]
    exact ih (g b a)

theorem repulsePairChecked_eq (m : MathOps) (ps : List Pos) (ij : Nat × Nat) :
    repulsePairChecked m ps ij = some (repulsePair m ps ij) := by
  simp only [repulsePairChecked, repulsePair]
  split
  next h =>
    have hd := ne_of_gt h
    have hdd := mul_ne_zero hd hd
    simp [divQ, hd, hdd, h]
  next h =>
    simp [h]

theorem repulseStepChecked_eq (m : MathOps) (n : Nat) (ps : List Pos) :
    repulseStepChecked m n ps = some (repulseStep m n ps) :=
  foldlM_eq_some (repulsePairChecked m) (repulsePair m)
    (repulsePairChecked_eq m) (upperPairs n) ps

theorem attractEdgeChecked_eq (m : MathOps) (nodes : List GraphNode)
    (ps : List Pos) (e : GraphEdge) :
    attractEdgeChecked m nodes ps e = some (attractEdge m nodes ps e) := by
  simp only [attractEdgeChecked, attractEdge]
  rcases hs : nodes.findIdx? (fun nd => nd.id == e.source) with _ | si <;>
    rcases ht : nodes.findIdx? (fun nd => nd.id == e.target) with _ | ti <;>
    simp only [hs, ht]
  · rfl
  · rfl
  · rfl
  · split
    next h =>
      have hd := ne_of_gt h
      simp [divQ, hd, h]
    next h =>
      simp [h]

theorem layoutStepChecked_eq (m : MathOps) (nodes : List GraphNode)
    (edges : List GraphEdge) (ps : List Pos) :
    layoutStepChecked m nodes edges ps = some (layoutStep m nodes edges ps) := by
  unfold layoutStepChecked layoutStep
  rw [repulseStepChecked_eq]
  simp only [Option.bind_eq_bind, Option.some_bind]
  rw [foldlM_eq_some (attractEdgeChecked m nodes) (attractEdge m nodes)
    (attractEdgeChecked_eq m nodes) edges]
  simp only [Option.some_bind]
  rfl

theorem layoutIterChecked_eq (m : MathOps) (nodes : List GraphNode)
    (edges : List GraphEdge) :
    ∀ (k : Nat) (ps : List Pos),
      layoutIterChecked m nodes edges k ps =
        some (layoutIter m nodes edges k ps) := by
  intro k
  induction k with
  | zero => intro ps; rfl
  | succ k ih =>
    intro ps
    show (layoutIterChecked m nodes edges k ps).bind
        (fun q => layoutStepChecked m nodes edges q) =
      some (layoutStep m nodes edges (layoutIter m nodes edges k ps))
    rw [ih, Option.some_bind, layoutStepChecked_eq]

theorem applyForceLayoutChecked_eq (m : MathOps) (g : GraphData) :
    applyForceLayoutChecked m g = some (applyForceLayout m g) := by
  unfold applyForceLayoutChecked applyForceLayout
  rw [layoutIterChecked_eq]
  rfl

/-- C9: the layout pass is division-safe and total: routing every division
of the repulsion and attraction computations through a failing division
operator still succeeds on every input graph and returns exactly the plain
layout result; moreover a node pair at identical positions (distance
`sqrt 0 = 0`) is skipped by the repulsion update, which leaves the
positions unchanged. -/
theorem layout_division_safe (m : MathOps) (g : GraphData) (ps : List Pos)
    (i j : Nat) (h0 : m.sqrt 0 = 0) (hsame : posGet ps i = posGet ps j) :
    applyForceLayoutChecked m g = some (applyForceLayout m g) ∧
    repulsePair m ps (i, j) = ps := by
  refine ⟨applyForceLayoutChecked_eq m g, ?_⟩
  unfold repulsePair
  simp [hsame, h0]

/-- Witness for C9: the empty graph, and two coincident positions whose
repulsion pair is skipped. -/
theorem layout_division_safe_witness :
    (mathQ.sqrt 0 = 0 ∧
      posGet [((1 : ℚ), (2 : ℚ)), ((1 : ℚ), (2 : ℚ))] 0 =
        posGet [((1 : ℚ), (2 : ℚ)), ((1 : ℚ), (2 : ℚ))] 1) ∧
    (applyForceLayoutChecked mathQ { nodes := [], edges := [] } =
        some (applyForceLayout mathQ { nodes := [], edges := [] }) ∧
      repulsePair mathQ [((1 : ℚ), (2 : ℚ)), ((1 : ℚ), (2 : ℚ))] (0, 1) =
        [((1 : ℚ), (2 : ℚ)), ((1 : ℚ), (2 : ℚ))]) :=
  ⟨⟨by norm_num [mathQ], rfl⟩,
    layout_division_safe mathQ { nodes := [], edges := [] }
      [((1 : ℚ), (2 : ℚ)), ((1 : ℚ), (2 : ℚ))] 0 1 (by norm_num [mathQ]) rfl⟩

/-! ### Claim C10 (edges with missing endpoints are skipped) -/

theorem attractEdge_of_missing (m : MathOps) (nodes : List GraphNode)
    (e : GraphEdge)
    (h : nodes.findIdx? (fun nd => nd.id == e.source) = none ∨
      nodes.findIdx? (fun nd => nd.id == e.target) = none) :
    ∀ ps, attractEdge m nodes ps e = ps := by
  intro ps
  simp only [attractEdge]
  rcases hs : nodes.findIdx? (fun nd => nd.id == e.source) with _ | si <;>
    rcases ht : nodes.findIdx? (fun nd => nd.id == e.target) with _ | ti <;>
    simp only [hs, ht]
  rcases h with h | h
  · rw [hs] at h
    exact absurd h (Option.some_ne_none si)
  · rw [ht] at h
    exact absurd h (Option.some_ne_none ti)

theorem foldl_attract_middle (m : MathOps) (nodes : List GraphNode)
    (es1 es2 : List GraphEdge) (e : GraphEdge)
    (hskip : ∀ ps, attractEdge m nodes ps e = ps) :
    ∀ ps, (es1 ++ e :: es2).foldl (attractEdge m nodes) ps =
      (es1 ++ es2).foldl (attractEdge m nodes) ps := by
  intro ps
  rw [List.foldl_append, List.foldl_append, List.foldl_cons, hskip]

theorem layoutStep_middle (m : MathOps) (nodes : List GraphNode)
    (es1 es2 : List GraphEdge) (e : GraphEdge)
    (hskip : ∀ ps, attractEdge m nodes ps e = ps) :
    ∀ ps, layoutStep m nodes (es1 ++ e :: es2) ps =
      layoutStep m nodes (es1 ++ es2) ps := by
  intro ps
  unfold layoutStep
  rw [foldl_attract_middle m nodes es1 es2 e hskip]

theorem layoutIter_middle (m : MathOps) (nodes : List GraphNode)
    (es1 es2 : List GraphEdge) (e : GraphEdge)
    (hskip : ∀ ps, attractEdge m nodes ps e = ps) :
    ∀ (k : Nat) (ps : List Pos),
      layoutIter m nodes (es1 ++ e :: es2) k ps =
        layoutIter m nodes (es1 ++ es2) k ps := by
  intro k
  induction k with
  | zero => intro ps; rfl
  | succ k ih =>
    intro ps
    rw [layoutIter_succ, layoutIter_succ, ih,
      layoutStep_middle m nodes es1 es2 e hskip]

theorem drawnEdges_middle (nodes : List GraphNode) (es1 es2 : List GraphEdge)
    (e : GraphEdge)
    (h : nodes.find? (fun nd => nd.id == e.source) = none ∨
      nodes.find? (fun nd => nd.id == e.target) = none) :
    drawnEdges { nodes := nodes, edges := es1 ++ e :: es2 } =
      drawnEdges { nodes := nodes, edges := es1 ++ es2 } := by
  unfold drawnEdges
  simp only
  rw [List.filterMap_append, List.filterMap_append, List.filterMap_cons]
  have he : (match nodes.find? (fun nd => nd.id == e.source),
      nodes.find? (fun nd => nd.id == e.target) with
    | some s, some t => some (s, t, e)
    | _, _ => none) = (none : Option (GraphNode × GraphNode × GraphEdge)) := by
    rcases hs : nodes.find? (fun nd => nd.id == e.source) with _ | s <;>
      rcases ht : nodes.find? (fun nd => nd.id == e.target) with _ | t <;>
      simp only [hs, ht]
    rcases h with h | h
    · rw [hs] at h
      exact absurd h (Option.some_ne_none s)
    · rw [ht] at h
      exact absurd h (Option.some_ne_none t)
  rw [he]

/-- C10: an edge whose source id or target id matches no node is skipped by
both the layout attraction step (leaving the positions unchanged) and the
renderer's edge pass, and removing such an edge changes neither the layout
result of the remaining graph nor the list of drawn edges. -/
theorem dangling_edge_skipped (m : MathOps) (nodes : List GraphNode)
    (es1 es2 : List GraphEdge) (e : GraphEdge) (ps : List Pos)
    (h : (∀ nd ∈ nodes, nd.id ≠ e.source) ∨ (∀ nd ∈ nodes, nd.id ≠ e.target)) :
    attractEdge m nodes ps e = ps ∧
    (applyForceLayout m { nodes := nodes, edges := es1 ++ e :: es2 }).nodes =
      (applyForceLayout m { nodes := nodes, edges := es1 ++ es2 }).nodes ∧
    drawnEdges { nodes := nodes, edges := es1 ++ e :: es2 } =
      drawnEdges { nodes := nodes, edges := es1 ++ es2 } := by
  have hIdx : nodes.findIdx? (fun nd => nd.id == e.source) = none ∨
      nodes.findIdx? (fun nd => nd.id == e.target) = none := by
    rcases h with h | h
    · left
      rw [List.findIdx?_eq_none_iff]
      intro x hx
      simpa using h x hx
    · right
      rw [List.findIdx?_eq_none_iff]
      intro x hx
      simpa using h x hx
  have hskip := attractEdge_of_missing m nodes e hIdx
  refine ⟨hskip ps, ?_, ?_⟩
  · show assemble nodes
        (layoutIter m nodes (es1 ++ e :: es2) 100 (initPositions m nodes)) =
      assemble nodes
        (layoutIter m nodes (es1 ++ es2) 100 (initPositions m nodes))
    rw [layoutIter_middle m nodes es1 es2 e hskip]
  · apply drawnEdges_middle
    rcases h with h | h
    · left
      rw [List.find?_eq_none]
      intro x hx
      simpa using h x hx
    · right
      rw [List.find?_eq_none]
      intro x hx
      simpa using h x hx

/-- An edge whose target id matches no node of the one-node graph
`[nodeA]`. -/
def danglingEdge : GraphEdge :=
  { id := "edge-x", source := "a", target := "zzz", type := "DEPENDS_ON" }

/-- Witness for C10: the dangling edge is skipped on the one-node graph. -/
theorem dangling_edge_skipped_witness :
    (∀ nd ∈ [nodeA], nd.id ≠ danglingEdge.target) ∧
    (attractEdge mathQ [nodeA] [] danglingEdge = [] ∧
      (applyForceLayout mathQ
          { nodes := [nodeA], edges := [] ++ danglingEdge :: [] }).nodes =
        (applyForceLayout mathQ { nodes := [nodeA], edges := [] ++ [] }).nodes ∧
      drawnEdges { nodes := [nodeA], edges := [] ++ danglingEdge :: [] } =
        drawnEdges { nodes := [nodeA], edges := [] ++ [] }) :=
  ⟨by decide, dangling_edge_skipped mathQ [nodeA] [] [] danglingEdge []
    (Or.inr (by decide))⟩

end TKG
